import Mathlib

/-!
Shallow embedding of the client-side credential-vault core of
`fortify-backend` (file `src/frontend/src/pages/CredentialVault.tsx`).

The component's React `useState` hooks are gathered into a single record
`VaultState`; each event handler of the component becomes a Lean function
from an environment (the external collaborators: crypto utilities and the
storage backend, which live outside `src/`) and a `VaultState` to a new
`VaultState`, together with the observations the claims need (number of
decrypt calls, the payload submitted to storage).  Asynchronous handlers
are modelled by their net effect on the state once all `setState` calls
have settled; the `Promise.all` fan-out of per-entry decryptions is
modelled sequentially fail-fast, which agrees with the source on the final
state and on the decrypt-call count in every situation the claims quantify
over (when verification fails, `getEncryptedVault` is never reached, so no
decrypt is issued under either scheduling).
-/

/-- Abstract cryptographic key (`CryptoKey` in the source). -/
abbrev Key : Type := Nat

/-- Wire shape of one encrypted field: `{cipherText, iv}` as used by
`decryptData(entry.f.cipherText, entry.f.iv, aesKey)`. -/
structure FieldEnvelope where
  cipherText : String
  iv : String
deriving DecidableEq

/-- One stored vault entry as returned by `getEncryptedVault().data`.
Each field may be absent (`undefined` in the source): the unlock code
dereferences `website`, `username` and `password` unconditionally, and
guards only `notes` (`entry.notes ? ... : ""`). -/
structure EncryptedEntry where
  id : String
  website : Option FieldEnvelope
  username : Option FieldEnvelope
  password : Option FieldEnvelope
  notes : Option FieldEnvelope
deriving DecidableEq

/-- The decrypted projection built in `handleUnlock`:
`{...entry, decryptedWebsite, decryptedUsername, decryptedPassword,
decryptedNotes}`. -/
structure DecryptedEntry where
  entry : EncryptedEntry
  decryptedWebsite : String
  decryptedUsername : String
  decryptedPassword : String
  decryptedNotes : String
deriving DecidableEq

/-- The `newEntry` form state `{website, username, password, notes}`. -/
structure NewEntry where
  website : String
  username : String
  password : String
  notes : String
deriving DecidableEq

/-- The blank form value `{ website: "", username: "", password: "", notes: "" }`. -/
def NewEntry.blank : NewEntry := ⟨"", "", "", ""⟩

/-- The `verification` object of the `getEncryptionSalt` response:
`{secret, hmac}`. -/
structure Verification where
  secret : String
  hmac : String
deriving DecidableEq

/-- The `getEncryptionSalt()` response fields used by `handleUnlock`.
Each is optional because the source checks
`if (!encryptionSalt || !keyDerivationMethod || !verification)`;
for the two strings JavaScript falsiness also rejects the empty string,
which the embedding checks separately. -/
structure SaltResponse where
  encryptionSalt : Option String
  keyDerivationMethod : Option String
  verification : Option Verification
deriving DecidableEq

/-- The collaborators imported from `../utils/cryptoUtils` and
`../utils/deriveKey`, which are outside `src/`; they are modelled as
abstract functions.  `deriveKey` may fail (unsupported KDF method) and
`decryptData` may fail (AEAD tag mismatch), modelled with `Option`;
`encryptData` is modelled as a function of plaintext and key. -/
structure CryptoEnv where
  base64ToBuffer : String → String
  deriveKey : String → String → String → Option (Key × Key)
  createHMAC : Key → String → String
  decryptData : String → String → Key → Option String
  encryptData : String → Key → FieldEnvelope

/-- All `useState` hooks of the `CredentialVault` component, plus the
`timeoutRef` ref (the scheduled auto-lock fire time, if a timeout is
pending). -/
structure VaultState where
  masterPassword : String
  vaultUnlocked : Bool
  credentials : List DecryptedEntry
  editingEntry : Option DecryptedEntry
  error : String
  isUnlocking : Bool
  isAdding : Bool
  isUpdating : Bool
  showAddForm : Bool
  newEntry : NewEntry
  aesKey : Option Key
  timeout : Option Nat
deriving DecidableEq

/-- `lockVault` (source lines 42-53): resets every piece of session state
and cancels the pending auto-lock timeout. -/
def lockVault (s : VaultState) : VaultState :=
  { s with
    vaultUnlocked := false
    aesKey := none
    credentials := []
    editingEntry := none
    showAddForm := false
    masterPassword := ""
    timeout := none }

/-- The external inputs consumed by one run of `handleUnlock`: the crypto
collaborators, the `getEncryptionSalt()` response (`none` when the call
rejects) and the `getEncryptedVault()` response's `data` list (`none`
when the call rejects). -/
structure UnlockEnv where
  crypto : CryptoEnv
  getEncryptionSalt : Option SaltResponse
  getEncryptedVault : Option (List EncryptedEntry)

/-- The per-entry body of the `Promise.all(encrypted.data.map(...))` in
`handleUnlock` (source lines 108-135).  Returns the decrypted projection
(`none` when the body throws: a missing `website`/`username`/`password`
envelope raises a TypeError before `decryptData` is called, and a failing
`decryptData` rejects) together with the number of `decryptData`
invocations the body performed before finishing or throwing. -/
def decryptEntry (c : CryptoEnv) (k : Key) (e : EncryptedEntry) :
    Option DecryptedEntry × Nat :=
  match e.website with
  | none => (none, 0)
  | some wEnv =>
    match c.decryptData wEnv.cipherText wEnv.iv k with
    | none => (none, 1)
    | some w =>
      match e.username with
      | none => (none, 1)
      | some uEnv =>
        match c.decryptData uEnv.cipherText uEnv.iv k with
        | none => (none, 2)
        | some u =>
          match e.password with
          | none => (none, 2)
          | some pEnv =>
            match c.decryptData pEnv.cipherText pEnv.iv k with
            | none => (none, 3)
            | some p =>
              match e.notes with
              | none => (some ⟨e, w, u, p, ""⟩, 3)
              | some nEnv =>
                match c.decryptData nEnv.cipherText nEnv.iv k with
                | none => (none, 4)
                | some n => (some ⟨e, w, u, p, n⟩, 4)

/-- The `Promise.all` join over all entries, modelled sequentially
fail-fast: the list of decrypted projections when every entry succeeds,
`none` as soon as one entry's body throws, plus the accumulated
`decryptData` call count. -/
def decryptAll (c : CryptoEnv) (k : Key) :
    List EncryptedEntry → Option (List DecryptedEntry) × Nat
  | [] => (some [], 0)
  | e :: es =>
    match decryptEntry c k e with
    | (none, n) => (none, n)
    | (some d, n) =>
      match decryptAll c k es with
      | (none, m) => (none, n + m)
      | (some ds, m) => (some (d :: ds), n + m)

/-- The `try` block of `handleUnlock` (source lines 85-140), as a function
of the environment and the typed master password.  Result: `some (aesKey,
decrypted)` when every step succeeds, `none` when any step throws (missing
or falsy response field, `deriveKey` failure, verification mismatch,
vault fetch failure, or any decryption failure); paired with the number of
`decryptData` calls performed. -/
def handleUnlockCore (env : UnlockEnv) (pw : String) :
    Option (Key × List DecryptedEntry) × Nat :=
  match env.getEncryptionSalt with
  | none => (none, 0)
  | some resp =>
    match resp.encryptionSalt, resp.keyDerivationMethod, resp.verification with
    | some salt, some method, some verif =>
      if salt.isEmpty ∨ method.isEmpty then (none, 0)
      else
        match env.crypto.deriveKey pw (env.crypto.base64ToBuffer salt) method with
        | none => (none, 0)
        | some (aesKey, hmacKey) =>
          if env.crypto.createHMAC hmacKey verif.secret ≠ verif.hmac then (none, 0)
          else
            match env.getEncryptedVault with
            | none => (none, 0)
            | some entries =>
              match decryptAll env.crypto aesKey entries with
              | (none, n) => (none, n)
              | (some ds, n) => (some (aesKey, ds), n)
    | _, _, _ => (none, 0)

/-- The single generic unlock error message (source line 143). -/
def unlockErrorMessage : String := "Incorrect master password or decryption failed."

/-- `handleUnlock` (source lines 81-147): net effect on the component
state once the handler settles, plus the `decryptData` call count.  On
success it stores the key, replaces the credential list and sets
`vaultUnlocked`; on any failure the `catch` sets the one generic error
message; `finally` clears `isUnlocking`; `error` was cleared at entry. -/
def handleUnlock (env : UnlockEnv) (s : VaultState) : VaultState × Nat :=
  match handleUnlockCore env s.masterPassword with
  | (some (k, ds), n) =>
    ({ s with error := "", isUnlocking := false,
              aesKey := some k, credentials := ds, vaultUnlocked := true }, n)
  | (none, n) =>
    ({ s with error := unlockErrorMessage, isUnlocking := false }, n)

/-- `true` exactly when the `try` block of `handleUnlock` throws somewhere
for this environment and this typed password. -/
def unlockFails (env : UnlockEnv) (pw : String) : Bool :=
  (handleUnlockCore env pw).1.isNone

/-- The envelope set submitted to the storage collaborator by the add and
update flows: `{website, username, password, notes}` where `notes` is
`null` when the notes plaintext was falsy (source lines 160-169 and
386-395). -/
structure SubmittedEnvelopes where
  website : FieldEnvelope
  username : FieldEnvelope
  password : FieldEnvelope
  notes : Option FieldEnvelope
deriving DecidableEq

/-- The payload built by `handleAddEntry` before calling `addEntry`
(source lines 157-169): each of the three required fields is encrypted;
`notes` is encrypted only when non-empty (`newEntry.notes ? ... : null`,
JavaScript falsiness of the empty string). -/
def submittedPayload (c : CryptoEnv) (k : Key) (ne : NewEntry) : SubmittedEnvelopes :=
  { website := c.encryptData ne.website k
    username := c.encryptData ne.username k
    password := c.encryptData ne.password k
    notes := if ne.notes.isEmpty then none else some (c.encryptData ne.notes k) }

/-- The stored form of a submitted payload under a fresh id, as the
storage backend will return it on the next `getEncryptedVault` fetch. -/
def storedEntryOf (id : String) (p : SubmittedEnvelopes) : EncryptedEntry :=
  ⟨id, some p.website, some p.username, some p.password, p.notes⟩

/-- The external inputs consumed by one run of `handleAddEntry`: the
crypto collaborators, the salt response for the refresh unlock, the
entries currently stored, whether the `addEntry` call succeeds, and the
id the backend assigns to the new entry. -/
structure AddEnv where
  crypto : CryptoEnv
  getEncryptionSalt : Option SaltResponse
  storedEntries : List EncryptedEntry
  addOk : Bool
  newId : String

/-- The stored list after a successful `addEntry`: the backend appends the
new entry, so the refresh fetch returns it alongside the old ones. -/
def appendedVault (env : AddEnv) (k : Key) (ne : NewEntry) : List EncryptedEntry :=
  env.storedEntries ++ [storedEntryOf env.newId (submittedPayload env.crypto k ne)]

/-- `handleAddEntry` (source lines 149-180): guarded by `if (!aesKey)
return;`; encrypts the form fields, submits them, and on success clears
the form and refreshes by re-running `handleUnlock`.  Returns the settled
state and the payload that was submitted to storage (`none` when the
guard returned before contacting storage). -/
def handleAddEntry (env : AddEnv) (s : VaultState) : VaultState × Option SubmittedEnvelopes :=
  match s.aesKey with
  | none => (s, none)
  | some k =>
    let payload := submittedPayload env.crypto k s.newEntry
    if env.addOk then
      let s1 := { s with error := "", isAdding := false,
                         showAddForm := false, newEntry := NewEntry.blank }
      ((handleUnlock ⟨env.crypto, env.getEncryptionSalt,
                      some (appendedVault env k s.newEntry)⟩ s1).1, some payload)
    else
      ({ s with error := "Failed to add entry.", isAdding := false }, some payload)

/-- The external inputs consumed by one run of the edit form's submit
handler: the crypto collaborators, the salt response for the refresh
unlock, whether the `updateEntry` call succeeds, and the stored entries
the refresh fetch returns after the update. -/
structure UpdateEnv where
  crypto : CryptoEnv
  getEncryptionSalt : Option SaltResponse
  updateOk : Bool
  updatedEntries : List EncryptedEntry

/-- The edit form's inline submit handler (source lines 366-405): guarded
by `if (!aesKey) return;`; re-encrypts the edited plaintext fields
(`notes` only when truthy), submits them under the editing entry's id, and
on success clears the editing state and refreshes by re-running
`handleUnlock`.  Returns the settled state and the submitted payload
(`none` when nothing was sent). -/
def handleUpdateEntry (env : UpdateEnv) (s : VaultState) : VaultState × Option SubmittedEnvelopes :=
  match s.aesKey with
  | none => (s, none)
  | some k =>
    match s.editingEntry with
    | none => ({ s with error := "Failed to update entry.", isUpdating := false }, none)
    | some ee =>
      let payload : SubmittedEnvelopes :=
        { website := env.crypto.encryptData ee.decryptedWebsite k
          username := env.crypto.encryptData ee.decryptedUsername k
          password := env.crypto.encryptData ee.decryptedPassword k
          notes := if ee.decryptedNotes.isEmpty then none
                   else some (env.crypto.encryptData ee.decryptedNotes k) }
      if env.updateOk then
        let s1 := { s with error := "", isUpdating := false, editingEntry := none }
        ((handleUnlock ⟨env.crypto, env.getEncryptionSalt,
                        some env.updatedEntries⟩ s1).1, some payload)
      else
        ({ s with error := "Failed to update entry.", isUpdating := false }, some payload)

/-- `const AUTO_LOCK_TIME = 1 * 60 * 1000;` (source line 39),
milliseconds. -/
def AUTO_LOCK_TIME : Nat := 1 * 60 * 1000

/-- `resetAutoLockTimer` (source lines 55-61): clears any pending timeout
and schedules `lockVault` to fire `AUTO_LOCK_TIME` ms from now.  The
pending-timeout state is the scheduled fire time; resetting replaces it
with the fresh deadline. -/
def resetAutoLockTimer (now : Nat) (_pending : Option Nat) : Option Nat :=
  some (now + AUTO_LOCK_TIME)

/-- Fire time of the auto-lock for a session unlocked at time `t0` with
qualifying activity signals at the given increasing times: the timer is
started at unlock (`resetAutoLockTimer()` in the `useEffect`, source line
72) and re-armed by each activity handled while the vault is still
unlocked (strictly before the pending deadline); an activity at or after
the pending deadline has no effect because the timeout has already run
`lockVault` and the effect cleanup removed the activity listeners. -/
def autoLockFireTime (t0 : Nat) (activities : List Nat) : Nat :=
  activities.foldl
    (fun deadline a =>
      if a < deadline then (resetAutoLockTimer a (some deadline)).getD deadline
      else deadline)
    ((resetAutoLockTimer t0 none).getD (t0 + AUTO_LOCK_TIME))

/-- An entry on which the per-entry decryption body of `handleUnlock`
succeeds: the three required envelopes are present and decrypt, and the
notes envelope, when present, decrypts too. -/
def entryFullyDecrypts (c : CryptoEnv) (k : Key) (e : EncryptedEntry) : Bool :=
  (decryptEntry c k e).1.isSome

/-- C2: after `lockVault` runs — the single routine every transition into
the Locked state goes through (explicit lock and the auto-lock timeout
callback both invoke it) — no key material and no decrypted entry remain,
the editing/add-form state is cleared, and the pending timeout is
cancelled, regardless of the prior state. -/
theorem lockVault_wipes_state (s : VaultState) :
    (lockVault s).vaultUnlocked = false ∧
    (lockVault s).aesKey = none ∧
    (lockVault s).credentials = [] ∧
    (lockVault s).editingEntry = none ∧
    (lockVault s).showAddForm = false ∧
    (lockVault s).masterPassword = "" ∧
    (lockVault s).timeout = none := by
  refine ⟨rfl, rfl, rfl, rfl, rfl, rfl, rfl⟩

/-! Concrete fixtures used to instantiate the theorems below. -/

/-- A concrete instantiation of the external crypto collaborators:
identity base64 decoding, a derivation that always yields the key pair
`(0, 0)`, a keyed tag that is always `"tag"`, a decryption that always
yields `"pt"`, and an encryption that stores the plaintext with nonce
`"iv"`. -/
def trivialCrypto : CryptoEnv :=
  { base64ToBuffer := fun s => s
    deriveKey := fun _ _ _ => some (0, 0)
    createHMAC := fun _ _ => "tag"
    decryptData := fun _ _ _ => some "pt"
    encryptData := fun pt _ => ⟨pt, "iv"⟩ }

/-- A `getEncryptionSalt` response whose challenge `trivialCrypto`
verifies successfully. -/
def okSaltResponse : SaltResponse :=
  { encryptionSalt := some "S1"
    keyDerivationMethod := some "kdf-v1"
    verification := some ⟨"secret", "tag"⟩ }

/-- A `getEncryptionSalt` response whose expected tag `trivialCrypto`
cannot reproduce: verification fails. -/
def badTagSaltResponse : SaltResponse :=
  { encryptionSalt := some "S1"
    keyDerivationMethod := some "kdf-v1"
    verification := some ⟨"secret", "other"⟩ }

/-- The component state in the Locked state with the master password
`"pw"` typed into the input field. -/
def lockedState : VaultState :=
  { masterPassword := "pw"
    vaultUnlocked := false
    credentials := []
    editingEntry := none
    error := ""
    isUnlocking := false
    isAdding := false
    isUpdating := false
    showAddForm := false
    newEntry := NewEntry.blank
    aesKey := none
    timeout := none }

/-- C1: when verification fails — the pipeline reaches the tag comparison
and the computed tag differs from the expected one — the unlock attempt
fails and performs zero `decryptData` calls: the verdict is produced
before any field decryption begins (`getEncryptedVault` and the decrypt
fan-out are only reached after the comparison passes). -/
theorem verify_gates_decryption (env : UnlockEnv) (s : VaultState)
    (resp : SaltResponse) (salt method : String) (verif : Verification) (ka kh : Key)
    (h1 : env.getEncryptionSalt = some resp)
    (h2 : resp.encryptionSalt = some salt)
    (h3 : resp.keyDerivationMethod = some method)
    (h4 : resp.verification = some verif)
    (h5 : salt.isEmpty = false)
    (h6 : method.isEmpty = false)
    (h7 : env.crypto.deriveKey s.masterPassword (env.crypto.base64ToBuffer salt) method
            = some (ka, kh))
    (h8 : env.crypto.createHMAC kh verif.secret ≠ verif.hmac) :
    unlockFails env s.masterPassword = true ∧ (handleUnlock env s).2 = 0 := by
  have hcore : handleUnlockCore env s.masterPassword = (none, 0) := by
    unfold handleUnlockCore
    rw [h1]; dsimp only
    rw [h2, h3, h4]; dsimp only
    rw [if_neg (by simp [h5, h6]), h7]; dsimp only
    rw [if_pos h8]
  constructor
  · unfold unlockFails
    rw [hcore]
    rfl
  · unfold handleUnlock
    rw [hcore]

/-- Witness for C1: a concrete run against `badTagSaltResponse`, whose
expected tag `"other"` differs from the computed tag `"tag"`. -/
theorem verify_gates_decryption_witness :
    unlockFails ⟨trivialCrypto, some badTagSaltResponse, some []⟩ lockedState.masterPassword = true ∧
    (handleUnlock ⟨trivialCrypto, some badTagSaltResponse, some []⟩ lockedState).2 = 0 :=
  verify_gates_decryption ⟨trivialCrypto, some badTagSaltResponse, some []⟩ lockedState
    badTagSaltResponse "S1" "kdf-v1" ⟨"secret", "other"⟩ 0 0
    rfl rfl rfl rfl rfl rfl rfl (by decide)

/-- Counterexample to C4: a successful unlock from a state with
`masterPassword = "pw"` leaves the session Unlocked while the component
state still holds the master password — the password is kept in the
`masterPassword` `useState` hook (it backs the controlled input and is
reused by the refresh-after-mutation `handleUnlock()` calls) and a
successful `handleUnlock` never clears it. -/
theorem masterPassword_retained_after_unlock :
    (handleUnlock ⟨trivialCrypto, some okSaltResponse, some []⟩ lockedState).1.vaultUnlocked
      = true ∧
    (handleUnlock ⟨trivialCrypto, some okSaltResponse, some []⟩ lockedState).1.masterPassword
      = "pw" := by
  constructor <;> rfl

/-- C4 amended: the master password lives in component state (the
`masterPassword` `useState` hook), not only in a local variable;
`handleUnlock` reads it from there and never changes it — in particular a
successful unlock leaves it resident while the session is Unlocked — and
it is cleared exactly when `lockVault` runs. -/
theorem masterPassword_cleared_only_by_lock (env : UnlockEnv) (s : VaultState) :
    (handleUnlock env s).1.masterPassword = s.masterPassword ∧
    (lockVault s).masterPassword = "" := by
  constructor
  · unfold handleUnlock
    rcases handleUnlockCore env s.masterPassword with ⟨o, n⟩
    rcases o with _ | ⟨k, ds⟩ <;> rfl
  · rfl

/-- C5: the auto-lock is a debounced single delayed task with a 60-second
(60000 ms) constant: `resetAutoLockTimer` replaces any pending deadline
with `now + AUTO_LOCK_TIME`; with the session unlocked at t=0 and no
activity the timer fires at t=60000 ms, and with exactly one activity at
t=30000 ms and none after it fires at t=90000 ms, not at t=60000 ms. -/
theorem auto_lock_debounce :
    AUTO_LOCK_TIME = 60 * 1000 ∧
    (∀ (now : Nat) (pending : Option Nat),
        resetAutoLockTimer now pending = some (now + AUTO_LOCK_TIME)) ∧
    autoLockFireTime 0 [] = 60 * 1000 ∧
    autoLockFireTime 0 [30 * 1000] = 90 * 1000 ∧
    autoLockFireTime 0 [30 * 1000] ≠ 60 * 1000 := by
  refine ⟨rfl, fun _ _ => rfl, rfl, rfl, by decide⟩

/-- C6: an absent notes field is "no envelope", preserved across the
public flows: the add flow submits `notes = none` exactly when the notes
plaintext is the empty string, and the unlock flow's per-entry decryption
maps an entry with no notes envelope — whose three required envelopes
decrypt — to a decrypted entry whose notes plaintext is `""`, without
failing. -/
theorem notes_absent_no_envelope :
    (∀ (c : CryptoEnv) (k : Key) (ne : NewEntry),
        (submittedPayload c k ne).notes = none ↔ ne.notes = "") ∧
    (∀ (c : CryptoEnv) (k : Key) (e : EncryptedEntry)
        (wEnv uEnv pEnv : FieldEnvelope) (w u p : String),
        e.notes = none →
        e.website = some wEnv → c.decryptData wEnv.cipherText wEnv.iv k = some w →
        e.username = some uEnv → c.decryptData uEnv.cipherText uEnv.iv k = some u →
        e.password = some pEnv → c.decryptData pEnv.cipherText pEnv.iv k = some p →
        (decryptEntry c k e).1 = some ⟨e, w, u, p, ""⟩) := by
  constructor
  · intro c k ne
    unfold submittedPayload
    by_cases h : ne.notes.isEmpty
    · simp [h, (String.isEmpty_iff _).mp h]
      decide
    · have h' : ¬ ne.notes = "" := fun he => h ((String.isEmpty_iff _).mpr he)
      simp [h, h']
  · intro c k e wEnv uEnv pEnv w u p hn hw hdw hu hdu hp hdp
    unfold decryptEntry
    rw [hw]; dsimp only
    rw [hdw]; dsimp only
    rw [hu]; dsimp only
    rw [hdu]; dsimp only
    rw [hp]; dsimp only
    rw [hdp]; dsimp only
    rw [hn]

/-- Witness for C6: the add flow with an empty notes field submits no
notes envelope, and an entry without a notes envelope decrypts under
`trivialCrypto` with notes recovered as `""`. -/
theorem notes_absent_no_envelope_witness :
    (submittedPayload trivialCrypto 0 ⟨"w", "u", "p", ""⟩).notes = none ∧
    (decryptEntry trivialCrypto 0
        ⟨"id", some ⟨"cw", "i"⟩, some ⟨"cu", "i"⟩, some ⟨"cp", "i"⟩, none⟩).1 =
      some ⟨⟨"id", some ⟨"cw", "i"⟩, some ⟨"cu", "i"⟩, some ⟨"cp", "i"⟩, none⟩,
            "pt", "pt", "pt", ""⟩ :=
  ⟨(notes_absent_no_envelope.1 trivialCrypto 0 ⟨"w", "u", "p", ""⟩).mpr rfl,
   notes_absent_no_envelope.2 trivialCrypto 0
     ⟨"id", some ⟨"cw", "i"⟩, some ⟨"cu", "i"⟩, some ⟨"cp", "i"⟩, none⟩
     ⟨"cw", "i"⟩ ⟨"cu", "i"⟩ ⟨"cp", "i"⟩ "pt" "pt" "pt"
     rfl rfl rfl rfl rfl rfl rfl⟩

/-- Inversion of a successful unlock: the vault fetch returned a list of
entries and the decrypt fan-out over that list succeeded with exactly the
credential list the handler stores. -/
theorem handleUnlockCore_some (env : UnlockEnv) (pw : String) (k : Key)
    (ds : List DecryptedEntry)
    (h : (handleUnlockCore env pw).1 = some (k, ds)) :
    ∃ entries, env.getEncryptedVault = some entries ∧
      (decryptAll env.crypto k entries).1 = some ds := by
  unfold handleUnlockCore at h
  rcases hs : env.getEncryptionSalt with _ | resp
  · rw [hs] at h; simp at h
  rw [hs] at h; dsimp only at h
  rcases h1 : resp.encryptionSalt with _ | salt
  · rw [h1] at h; simp at h
  rcases h2 : resp.keyDerivationMethod with _ | method
  · rw [h1, h2] at h; simp at h
  rcases h3 : resp.verification with _ | verif
  · rw [h1, h2, h3] at h; simp at h
  rw [h1, h2, h3] at h; dsimp only at h
  by_cases hif : (salt.isEmpty = true ∨ method.isEmpty = true)
  · rw [if_pos hif] at h; simp at h
  rw [if_neg hif] at h
  rcases h4 : env.crypto.deriveKey pw (env.crypto.base64ToBuffer salt) method
    with _ | ⟨ka, kh⟩
  · rw [h4] at h; simp at h
  rw [h4] at h; dsimp only at h
  by_cases h5 : env.crypto.createHMAC kh verif.secret ≠ verif.hmac
  · rw [if_pos h5] at h; simp at h
  rw [if_neg h5] at h
  rcases h6 : env.getEncryptedVault with _ | entries
  · rw [h6] at h; simp at h
  rw [h6] at h; dsimp only at h
  rcases h7 : decryptAll env.crypto ka entries with ⟨o, n⟩
  rw [h7] at h
  rcases o with _ | ds'
  · simp at h
  · dsimp only at h
    have hk : ka = k := congrArg (fun p => p.1) (Option.some.inj h)
    have hds : ds' = ds := congrArg (fun p => p.2) (Option.some.inj h)
    subst hk; subst hds
    exact ⟨entries, rfl, by rw [h7]⟩

/-- A successful decrypt fan-out means every fetched entry fully
decrypted. -/
theorem decryptAll_mem_fullyDecrypts (c : CryptoEnv) (k : Key) :
    ∀ (es : List EncryptedEntry) (ds : List DecryptedEntry),
      (decryptAll c k es).1 = some ds → ∀ e ∈ es, entryFullyDecrypts c k e = true := by
  intro es
  induction es with
  | nil => intro ds _ e he; cases he
  | cons e0 es ih =>
    intro ds h e he
    unfold decryptAll at h
    rcases h0 : decryptEntry c k e0 with ⟨o, n⟩
    rw [h0] at h
    rcases o with _ | d
    · simp at h
    · rcases h1 : decryptAll c k es with ⟨os, m⟩
      rw [h1] at h
      rcases os with _ | ds'
      · simp at h
      · rcases List.mem_cons.mp he with rfl | hes
        · unfold entryFullyDecrypts
          rw [h0]
          rfl
        · exact ih ds' (by rw [h1]) e hes

/-- A successful decrypt fan-out yields exactly one decrypted projection
per fetched entry. -/
theorem decryptAll_length (c : CryptoEnv) (k : Key) :
    ∀ (es : List EncryptedEntry) (ds : List DecryptedEntry),
      (decryptAll c k es).1 = some ds → ds.length = es.length := by
  intro es
  induction es with
  | nil =>
    intro ds h
    simp [decryptAll] at h
    subst h
    rfl
  | cons e0 es ih =>
    intro ds h
    unfold decryptAll at h
    rcases h0 : decryptEntry c k e0 with ⟨o, n⟩
    rw [h0] at h
    rcases o with _ | d
    · simp at h
    · rcases h1 : decryptAll c k es with ⟨os, m⟩
      rw [h1] at h
      rcases os with _ | ds'
      · simp at h
      · dsimp only at h
        have hds : d :: ds' = ds := Option.some.inj h
        subst hds
        simp [ih ds' (by rw [h1])]

/-- An entry missing any of the three required envelopes makes the
per-entry decryption body throw before producing a projection. -/
theorem decryptEntry_missing_mandatory (c : CryptoEnv) (k : Key) (e : EncryptedEntry)
    (h : e.website = none ∨ e.username = none ∨ e.password = none) :
    (decryptEntry c k e).1 = none := by
  unfold decryptEntry
  rcases hw : e.website with _ | wEnv
  · rfl
  dsimp only
  rcases hdw : c.decryptData wEnv.cipherText wEnv.iv k with _ | w
  · rfl
  dsimp only
  rcases hu : e.username with _ | uEnv
  · rfl
  dsimp only
  rcases hdu : c.decryptData uEnv.cipherText uEnv.iv k with _ | u
  · rfl
  dsimp only
  rcases hp : e.password with _ | pEnv
  · rfl
  rcases h with h | h | h
  · rw [hw] at h; cases h
  · rw [hu] at h; cases h
  · rw [hp] at h; cases h

/-- C3: the unlock flow is all-or-nothing.  Starting from the Locked
state, if any step of the unlock attempt fails the session is unchanged —
still locked, no key stored, no decrypted entry presented — and the
session becomes Unlocked only when every entry fetched from storage fully
decrypted (every required field and any present notes field), with the
stored key and credential list coming from that one successful run. -/
theorem unlock_all_or_nothing (env : UnlockEnv) (s : VaultState)
    (hU : s.vaultUnlocked = false) (hK : s.aesKey = none) (hC : s.credentials = []) :
    (unlockFails env s.masterPassword = true →
       (handleUnlock env s).1.vaultUnlocked = false ∧
       (handleUnlock env s).1.aesKey = none ∧
       (handleUnlock env s).1.credentials = []) ∧
    ((handleUnlock env s).1.vaultUnlocked = true →
       ∃ k entries ds,
         (handleUnlock env s).1.aesKey = some k ∧
         (handleUnlock env s).1.credentials = ds ∧
         env.getEncryptedVault = some entries ∧
         ∀ e ∈ entries, entryFullyDecrypts env.crypto k e = true) := by
  rcases hc : handleUnlockCore env s.masterPassword with ⟨o, n⟩
  rcases o with _ | ⟨k, ds⟩
  · constructor
    · intro _
      unfold handleUnlock
      rw [hc]
      exact ⟨hU, hK, hC⟩
    · intro hT
      unfold handleUnlock at hT
      rw [hc] at hT
      dsimp only at hT
      rw [hU] at hT
      cases hT
  · constructor
    · intro hF
      unfold unlockFails at hF
      rw [hc] at hF
      simp at hF
    · intro _
      obtain ⟨entries, hv, hd⟩ :=
        handleUnlockCore_some env s.masterPassword k ds (by rw [hc])
      refine ⟨k, entries, ds, ?_, ?_, hv, ?_⟩
      · unfold handleUnlock; rw [hc]
      · unfold handleUnlock; rw [hc]
      · intro e he
        exact decryptAll_mem_fullyDecrypts env.crypto k entries ds hd e he

/-- Witness for C3: with the server parameters missing, the unlock attempt
from the Locked state with password `"pw"` leaves the session locked with
no key and no credentials. -/
theorem unlock_all_or_nothing_witness :
    (handleUnlock ⟨trivialCrypto, none, none⟩ lockedState).1.vaultUnlocked = false ∧
    (handleUnlock ⟨trivialCrypto, none, none⟩ lockedState).1.aesKey = none ∧
    (handleUnlock ⟨trivialCrypto, none, none⟩ lockedState).1.credentials = [] :=
  (unlock_all_or_nothing ⟨trivialCrypto, none, none⟩ lockedState rfl rfl rfl).1 rfl

/-- C7: every failing unlock run — no matter which sub-step failed —
surfaces the single generic user-facing message, so two runs that fail at
different sub-steps produce identical user-visible error output. -/
theorem unlock_failure_message_uniform (env1 env2 : UnlockEnv) (s1 s2 : VaultState)
    (h1 : unlockFails env1 s1.masterPassword = true)
    (h2 : unlockFails env2 s2.masterPassword = true) :
    (handleUnlock env1 s1).1.error = unlockErrorMessage ∧
    (handleUnlock env2 s2).1.error = unlockErrorMessage ∧
    (handleUnlock env1 s1).1.error = (handleUnlock env2 s2).1.error := by
  have key : ∀ (env : UnlockEnv) (s : VaultState),
      unlockFails env s.masterPassword = true →
      (handleUnlock env s).1.error = unlockErrorMessage := by
    intro env s hf
    unfold unlockFails at hf
    unfold handleUnlock
    rcases hc : handleUnlockCore env s.masterPassword with ⟨o, n⟩
    rw [hc] at hf
    simp only [Option.isNone_iff_eq_none] at hf
    subst hf
    rfl
  exact ⟨key env1 s1 h1, key env2 s2 h2,
         (key env1 s1 h1).trans (key env2 s2 h2).symm⟩

/-- Witness for C7: a run that fails because the server parameters are
missing and a run that fails at the verification mismatch produce the same
user-visible error message. -/
theorem unlock_failure_message_uniform_witness :
    (handleUnlock ⟨trivialCrypto, none, none⟩ lockedState).1.error =
      (handleUnlock ⟨trivialCrypto, some badTagSaltResponse, some []⟩ lockedState).1.error :=
  (unlock_failure_message_uniform ⟨trivialCrypto, none, none⟩
    ⟨trivialCrypto, some badTagSaltResponse, some []⟩ lockedState lockedState
    rfl (by decide)).2.2

/-- C9: the unlock flow treats the website, username and password
envelopes as mandatory: if any fetched entry lacks one of them the whole
unlock attempt fails and the session stays Locked with no key resident
(only the notes envelope may be absent without aborting). -/
theorem missing_required_envelope_aborts_unlock (env : UnlockEnv) (s : VaultState)
    (entries : List EncryptedEntry) (e : EncryptedEntry)
    (hU : s.vaultUnlocked = false) (hK : s.aesKey = none)
    (hv : env.getEncryptedVault = some entries) (he : e ∈ entries)
    (hmiss : e.website = none ∨ e.username = none ∨ e.password = none) :
    unlockFails env s.masterPassword = true ∧
    (handleUnlock env s).1.vaultUnlocked = false ∧
    (handleUnlock env s).1.aesKey = none := by
  have hfail : (handleUnlockCore env s.masterPassword).1 = none := by
    rcases hc : handleUnlockCore env s.masterPassword with ⟨o, n⟩
    rcases o with _ | ⟨k, ds⟩
    · rfl
    · exfalso
      obtain ⟨entries2, hv2, hd⟩ :=
        handleUnlockCore_some env s.masterPassword k ds (by rw [hc])
      rw [hv] at hv2
      injection hv2 with hv2
      subst hv2
      have hfull := decryptAll_mem_fullyDecrypts env.crypto k entries ds hd e he
      unfold entryFullyDecrypts at hfull
      rw [decryptEntry_missing_mandatory env.crypto k e hmiss] at hfull
      cases hfull
  refine ⟨?_, ?_, ?_⟩
  · unfold unlockFails
    rw [hfail]
    rfl
  · unfold handleUnlock
    rcases hc : handleUnlockCore env s.masterPassword with ⟨o, n⟩
    rw [hc] at hfail
    dsimp only at hfail
    subst hfail
    exact hU
  · unfold handleUnlock
    rcases hc : handleUnlockCore env s.masterPassword with ⟨o, n⟩
    rw [hc] at hfail
    dsimp only at hfail
    subst hfail
    exact hK

/-- Witness for C9: an entry whose website envelope is absent (username
and password present) aborts a concrete unlock attempt that passes
verification, leaving the session locked. -/
theorem missing_required_envelope_aborts_unlock_witness :
    unlockFails
      ⟨trivialCrypto, some okSaltResponse,
       some [⟨"id", none, some ⟨"cu", "i"⟩, some ⟨"cp", "i"⟩, none⟩]⟩
      lockedState.masterPassword = true ∧
    (handleUnlock
      ⟨trivialCrypto, some okSaltResponse,
       some [⟨"id", none, some ⟨"cu", "i"⟩, some ⟨"cp", "i"⟩, none⟩]⟩
      lockedState).1.vaultUnlocked = false ∧
    (handleUnlock
      ⟨trivialCrypto, some okSaltResponse,
       some [⟨"id", none, some ⟨"cu", "i"⟩, some ⟨"cp", "i"⟩, none⟩]⟩
      lockedState).1.aesKey = none :=
  missing_required_envelope_aborts_unlock
    ⟨trivialCrypto, some okSaltResponse,
     some [⟨"id", none, some ⟨"cu", "i"⟩, some ⟨"cp", "i"⟩, none⟩]⟩
    lockedState
    [⟨"id", none, some ⟨"cu", "i"⟩, some ⟨"cp", "i"⟩, none⟩]
    ⟨"id", none, some ⟨"cu", "i"⟩, some ⟨"cp", "i"⟩, none⟩
    rfl rfl rfl (List.mem_singleton.mpr rfl) (Or.inl rfl)

/-- C10: both mutation submit handlers are guarded on key presence: with
no session key resident (`aesKey = null`), the add handler and the update
handler return immediately — the state is unchanged and nothing is
submitted to the storage collaborator (no encryption happens either, as
the guard precedes every `encryptData` call). -/
theorem mutation_requires_session_key (aenv : AddEnv) (uenv : UpdateEnv)
    (s : VaultState) (hk : s.aesKey = none) :
    handleAddEntry aenv s = (s, none) ∧ handleUpdateEntry uenv s = (s, none) := by
  constructor
  · unfold handleAddEntry; rw [hk]
  · unfold handleUpdateEntry; rw [hk]

/-- Witness for C10: with the vault locked (no key), concrete add and
update invocations leave the state untouched and submit nothing. -/
theorem mutation_requires_session_key_witness :
    handleAddEntry ⟨trivialCrypto, none, [], false, "x"⟩ lockedState =
      (lockedState, none) ∧
    handleUpdateEntry ⟨trivialCrypto, none, false, []⟩ lockedState =
      (lockedState, none) :=
  mutation_requires_session_key ⟨trivialCrypto, none, [], false, "x"⟩
    ⟨trivialCrypto, none, false, []⟩ lockedState rfl

/-- With a session key resident and a storage add that succeeds,
`handleAddEntry` submits the encrypted payload, clears the form, and hands
off to a fresh `handleUnlock` run against the post-add stored list. -/
theorem handleAddEntry_success (env : AddEnv) (s : VaultState) (k : Key)
    (hk : s.aesKey = some k) (hok : env.addOk = true) :
    handleAddEntry env s =
      ((handleUnlock ⟨env.crypto, env.getEncryptionSalt,
          some (appendedVault env k s.newEntry)⟩
         { s with error := "", isAdding := false,
                  showAddForm := false, newEntry := NewEntry.blank }).1,
       some (submittedPayload env.crypto k s.newEntry)) := by
  unfold handleAddEntry
  rw [hk]
  dsimp only
  rw [hok]
  simp

/-- C8: after a successful add, the orchestrator refreshes by re-fetching
and fully re-decrypting: whenever the refresh unlock run against the
post-add stored list succeeds, the credential list visible afterwards is
exactly that run's freshly decrypted output — one projection per stored
entry — and its count is the prior count plus one. -/
theorem add_refresh_full_redecrypt (env : AddEnv) (s : VaultState) (k k2 : Key)
    (ds : List DecryptedEntry)
    (hk : s.aesKey = some k)
    (hok : env.addOk = true)
    (hlen : s.credentials.length = env.storedEntries.length)
    (hcore : (handleUnlockCore
        ⟨env.crypto, env.getEncryptionSalt, some (appendedVault env k s.newEntry)⟩
        s.masterPassword).1 = some (k2, ds)) :
    (handleAddEntry env s).1.credentials = ds ∧
    (handleAddEntry env s).1.vaultUnlocked = true ∧
    (decryptAll env.crypto k2 (appendedVault env k s.newEntry)).1 = some ds ∧
    (handleAddEntry env s).1.credentials.length = s.credentials.length + 1 := by
  obtain ⟨entries, hv, hd⟩ :=
    handleUnlockCore_some
      ⟨env.crypto, env.getEncryptionSalt, some (appendedVault env k s.newEntry)⟩
      s.masterPassword k2 ds hcore
  have hent : entries = appendedVault env k s.newEntry := (Option.some.inj hv).symm
  subst hent
  have hkey : ∀ (E : UnlockEnv) (t : VaultState),
      (handleUnlockCore E t.masterPassword).1 = some (k2, ds) →
      (handleUnlock E t).1.credentials = ds ∧
      (handleUnlock E t).1.vaultUnlocked = true := by
    intro E t hc
    unfold handleUnlock
    rcases hcall : handleUnlockCore E t.masterPassword with ⟨o, n⟩
    rw [hcall] at hc
    dsimp only at hc
    subst hc
    exact ⟨rfl, rfl⟩
  have hres := handleAddEntry_success env s k hk hok
  have happ : (handleAddEntry env s).1 =
      (handleUnlock ⟨env.crypto, env.getEncryptionSalt,
          some (appendedVault env k s.newEntry)⟩
        { s with error := "", isAdding := false,
                 showAddForm := false, newEntry := NewEntry.blank }).1 := by
    rw [hres]
  have hcd := hkey
    ⟨env.crypto, env.getEncryptionSalt, some (appendedVault env k s.newEntry)⟩
    { s with error := "", isAdding := false,
             showAddForm := false, newEntry := NewEntry.blank }
    hcore
  have hlen2 : ds.length = s.credentials.length + 1 := by
    have hl := decryptAll_length env.crypto k2 (appendedVault env k s.newEntry) ds hd
    rw [hl]
    unfold appendedVault
    simp [hlen]
  refine ⟨?_, ?_, hd, ?_⟩
  · rw [happ]; exact hcd.1
  · rw [happ]; exact hcd.2
  · rw [happ, hcd.1]; exact hlen2

/-- Witness for C8: starting Unlocked with an empty credential list and an
empty store, adding the entry `{website: "w", username: "u", password:
"p", notes: ""}` refreshes to a freshly decrypted list of length one. -/
theorem add_refresh_full_redecrypt_witness :
    (handleAddEntry ⟨trivialCrypto, some okSaltResponse, [], true, "id1"⟩
        { lockedState with vaultUnlocked := true, aesKey := some 0,
                           newEntry := ⟨"w", "u", "p", ""⟩ }).1.credentials.length
      = 1 := by
  have h := add_refresh_full_redecrypt
    ⟨trivialCrypto, some okSaltResponse, [], true, "id1"⟩
    { lockedState with vaultUnlocked := true, aesKey := some 0,
                       newEntry := ⟨"w", "u", "p", ""⟩ }
    0 0
    [⟨⟨"id1", some ⟨"w", "iv"⟩, some ⟨"u", "iv"⟩, some ⟨"p", "iv"⟩, none⟩,
      "pt", "pt", "pt", ""⟩]
    rfl rfl rfl (by decide)
  exact h.2.2.2
